import Mathlib

/-!
Shallow embedding of the puhui server's streaming-relay and usage-ledger
subsystem, together with proofs of the behavioural properties stated in the
natural-language specification.

Sources embedded here:
- `src/server/controllers/usageController.js` (`logUsage`, `getMyUsage`)
- `src/server/middleware/auth.js` (`authenticateToken`), login from
  `src/unnamed/part_003`
- `src/server/controllers/geminiController.js` (`research` parsing)
- `src/unnamed/part_001` (`waitForFilesActive`, `processAudio` streaming
  accumulation, `refineTranscript`)
- `src/unnamed/part_011` (`handleGenerate` cost summation)

JavaScript strings are modelled as `List Char` where character-level
processing matters, numbers as `Nat`/`Int`, SQL tables as Lean lists, and
the mid-transaction failure of any database statement as an explicit
failure oracle.
-/

/-! ### Generic character/string helpers (JS string primitives) -/

/-- JS `\s` whitespace class restricted to the ASCII range (space, tab,
newline, carriage return, vertical tab, form feed). -/
def isWsChar (c : Char) : Bool :=
  c = ' ' || c = '\t' || c = '\n' || c = '\r' || c = '\x0b' || c = '\x0c'

/-- JS `String.prototype.trim`: drop whitespace from both ends. -/
def trimWS (l : List Char) : List Char :=
  ((l.dropWhile isWsChar).reverse.dropWhile isWsChar).reverse

/-- ASCII lower-casing of one character, used to model the `i` regex flag. -/
def lowerChar (c : Char) : Char :=
  if 'A' ≤ c && c ≤ 'Z' then Char.ofNat (c.toNat + 32) else c

/-- ASCII lower-casing of a string (as a character list). -/
def lcase (l : List Char) : List Char := l.map lowerChar

/-- Test whether `pat` is a prefix of `l` (character-exact). -/
def isPre : List Char → List Char → Bool
  | [], _ => true
  | _ :: _, [] => false
  | c :: cs, d :: ds => c = d && isPre cs ds

/-- Index of the first occurrence of `pat` inside `hay`, or `none`, as a JS
regex engine scanning left to right would find it. -/
def subIdx (pat : List Char) : List Char → Option Nat
  | [] => if isPre pat [] then some 0 else none
  | c :: rest =>
    if isPre pat (c :: rest) then some 0
    else (subIdx pat rest).map (· + 1)

/-- JS `String.prototype.split(sep)` for a one-character separator: always
returns at least one (possibly empty) piece. -/
def splitOnChar (sep : Char) : List Char → List (List Char)
  | [] => [[]]
  | c :: rest =>
    if c = sep then [] :: splitOnChar sep rest
    else
      match splitOnChar sep rest with
      | l :: ls => (c :: l) :: ls
      | [] => [[c]]

/-- JS `Array.prototype.join(sep)` for a one-character separator. -/
def joinWith (sep : Char) : List (List Char) → List Char
  | [] => []
  | [l] => l
  | l :: ls => l ++ sep :: joinWith sep ls

theorem splitOnChar_ne_nil (sep : Char) (l : List Char) :
    splitOnChar sep l ≠ [] := by
  cases l with
  | nil => simp [splitOnChar]
  | cons c rest =>
    simp only [splitOnChar]
    split
    · simp
    · cases h : splitOnChar sep rest <;> simp

theorem joinWith_splitOnChar (sep : Char) (l : List Char) :
    joinWith sep (splitOnChar sep l) = l := by
  induction l with
  | nil => rfl
  | cons c rest ih =>
    simp only [splitOnChar]
    by_cases hc : c = sep
    · subst hc
      simp only [if_pos rfl]
      cases h : splitOnChar c rest with
      | nil => exact absurd h (splitOnChar_ne_nil c rest)
      | cons l ls =>
        rw [h] at ih
        simp [joinWith, ih]
    · rw [if_neg hc]
      cases h : splitOnChar sep rest with
      | nil => exact absurd h (splitOnChar_ne_nil sep rest)
      | cons l ls =>
        rw [h] at ih
        cases ls with
        | nil => simpa [joinWith] using ih
        | cons l2 ls2 => simpa [joinWith] using ih

/-! ### Usage ledger: `logUsage` from `src/server/controllers/usageController.js`

The MySQL path runs inside one transaction (insert usage row, decrement the
balance, reselect the balance, commit); any statement failing rolls the
whole transaction back and the endpoint answers 500.  The in-memory
mock-database path pushes the log entry, then decrements the balance of the
first matching mock user if one exists.  `fail` is the failure oracle for
the four transaction steps; the mock path has no awaited statement that can
fail mid-way. -/

/-- One row of the append-only `usage_logs` table. -/
structure UsageRecord where
  user_id : Nat
  feature_name : String
  token_count : Int
  created_at : Nat
deriving Repr, DecidableEq

/-- The slice of a `users` row that the ledger touches. -/
structure UserRow where
  id : Nat
  tokens : Int
deriving Repr, DecidableEq

/-- Ledger-relevant database state: `users` balances plus `usage_logs`. -/
structure Db where
  users : List UserRow
  usage_logs : List UsageRecord
deriving Repr, DecidableEq

/-- The four awaited steps of the ledger transaction. -/
inductive TxStep where
  | insert
  | update
  | select
  | commit
deriving Repr, DecidableEq

/-- HTTP response of `logUsage`: `res.json({success, remainingTokens?})` or
a 500 after rollback. -/
inductive LogResponse where
  | success (remainingTokens : Option Int)
  | error500
deriving Repr, DecidableEq

/-- JS `user.tokens -= amt` after `mockUsers.find(...)`: mutate the first
matching element only. -/
def updateFirst (p : α → Bool) (f : α → α) : List α → List α
  | [] => []
  | x :: xs => if p x then f x :: xs else x :: updateFirst p f xs

/-- `logUsage` (usageController.js:5-48): `useMock` mirrors the process-wide
`useMockDb` flag; `tokenCount` is the request-body field (`tokenCount || 0`
defaults a missing value to zero); `fail s = true` makes transaction step
`s` throw, which triggers `connection.rollback()`. -/
def logUsage (useMock : Bool) (db : Db) (uid : Nat) (feature : String)
    (tokenCount : Option Int) (now : Nat) (fail : TxStep → Bool) :
    Db × LogResponse :=
  let amt := tokenCount.getD 0
  if useMock then
    let db1 : Db :=
      { db with usage_logs := db.usage_logs ++ [⟨uid, feature, amt, now⟩] }
    match db1.users.find? (fun u => u.id = uid) with
    | some u =>
      let newTokens := u.tokens - amt
      ({ db1 with
          users := updateFirst (fun v => v.id = uid)
            (fun v => { v with tokens := newTokens }) db1.users },
        .success (some newTokens))
    | none => (db1, .success none)
  else
    if fail .insert then (db, .error500) else
    let db1 : Db :=
      { db with usage_logs := db.usage_logs ++ [⟨uid, feature, amt, now⟩] }
    if fail .update then (db, .error500) else
    let db2 : Db :=
      { db1 with
          users := db1.users.map
            (fun u => if u.id = uid then { u with tokens := u.tokens - amt } else u) }
    if fail .select then (db, .error500) else
    match (db2.users.find? (fun u => u.id = uid)).map (fun u => u.tokens) with
    | none => (db, .error500)
    | some remaining =>
      if fail .commit then (db, .error500) else (db2, .success (some remaining))

/-- C1 counterexample. On the in-memory fallback path (`useMockDb = true`),
a `logUsage` call whose JWT user id is absent from `mockUsers` (for
example a token issued while the real database was still reachable)
completes with `success: true`, appends a usage record of 5 tokens, and
mutates no balance at all: record insertion and balance mutation are not
atomic on that path. -/
theorem logUsage_mock_orphan_record :
    (logUsage true ⟨[], []⟩ 1 "可視化引擎" (some 5) 100 (fun _ => false)).2
        = .success none
      ∧ (logUsage true ⟨[], []⟩ 1 "可視化引擎" (some 5) 100 (fun _ => false)).1.usage_logs
        = [⟨1, "可視化引擎", 5, 100⟩]
      ∧ (logUsage true ⟨[], []⟩ 1 "可視化引擎" (some 5) 100 (fun _ => false)).1.users
        = [] := by
  refine ⟨rfl, rfl, rfl⟩

/-- C1 (amended). On the real-database path the debit is atomic: whatever
transaction step fails, either the call answers 500 and the database is
exactly the initial one, or the call succeeds and both the usage record and
the balance decrement are applied.  On the mock path the two writes are
applied back-to-back with no failure point when the user exists, but a call
for a user id absent from the mock store appends the record, leaves every
balance untouched and still reports success. -/
theorem logUsage_atomic (db : Db) (uid : Nat) (feature : String)
    (tokenCount : Option Int) (now : Nat) (fail : TxStep → Bool) :
    (((logUsage false db uid feature tokenCount now fail).1 = db
        ∧ (logUsage false db uid feature tokenCount now fail).2 = .error500)
    ∨ ((logUsage false db uid feature tokenCount now fail).1.usage_logs
          = db.usage_logs ++ [⟨uid, feature, tokenCount.getD 0, now⟩]
        ∧ (logUsage false db uid feature tokenCount now fail).1.users
          = db.users.map (fun u =>
              if u.id = uid then { u with tokens := u.tokens - tokenCount.getD 0 } else u)
        ∧ ∃ rem, (logUsage false db uid feature tokenCount now fail).2
            = .success (some rem)))
    ∧ (∀ u, db.users.find? (fun v => v.id = uid) = some u →
        (logUsage true db uid feature tokenCount now fail).1.usage_logs
            = db.usage_logs ++ [⟨uid, feature, tokenCount.getD 0, now⟩]
          ∧ (logUsage true db uid feature tokenCount now fail).1.users
            = updateFirst (fun v => v.id = uid)
                (fun v => { v with tokens := u.tokens - tokenCount.getD 0 }) db.users
          ∧ (logUsage true db uid feature tokenCount now fail).2
            = .success (some (u.tokens - tokenCount.getD 0)))
    ∧ (db.users.find? (fun v => v.id = uid) = none →
        (logUsage true db uid feature tokenCount now fail).1.usage_logs
            = db.usage_logs ++ [⟨uid, feature, tokenCount.getD 0, now⟩]
          ∧ (logUsage true db uid feature tokenCount now fail).1.users = db.users
          ∧ (logUsage true db uid feature tokenCount now fail).2 = .success none) := by
  refine ⟨?_, ?_, ?_⟩
  case refine_2 =>
    intro u hu
    refine ⟨?_, ?_, ?_⟩ <;> simp [logUsage, hu]
  case refine_3 =>
    intro hnone
    refine ⟨?_, ?_, ?_⟩ <;> simp [logUsage, hnone]
  unfold logUsage
  by_cases h1 : fail .insert
  · simp [h1]
  by_cases h2 : fail .update
  · simp [h1, h2]
  by_cases h3 : fail .select
  · simp [h1, h2, h3]
  simp only [h1, h2, h3, if_false, Bool.false_eq_true, if_neg, reduceIte]
  cases hfind : (List.find? (fun u => decide (u.id = uid))
      (db.users.map (fun u =>
        if u.id = uid then { u with tokens := u.tokens - tokenCount.getD 0 } else u))) with
  | none => simp [hfind]
  | some u =>
    by_cases h4 : fail .commit
    · simp [hfind, h4]
    · simp [hfind, h4]

/-- C1 witness: a zero-hypothesis instance of the amended atomicity theorem,
covering a concrete successful mock-path debit for an existing user. -/
theorem logUsage_atomic_witness :
    (logUsage true ⟨[⟨4, 10⟩], []⟩ 4 "chat" (some 3) 9 (fun _ => false)).1.usage_logs
        = [⟨4, "chat", 3, 9⟩]
      ∧ (logUsage true ⟨[⟨4, 10⟩], []⟩ 4 "chat" (some 3) 9 (fun _ => false)).1.users
        = updateFirst (fun v => v.id = 4) (fun v => { v with tokens := 10 - 3 })
            [⟨4, 10⟩]
      ∧ (logUsage true ⟨[⟨4, 10⟩], []⟩ 4 "chat" (some 3) 9 (fun _ => false)).2
        = .success (some (10 - 3)) :=
  (logUsage_atomic ⟨[⟨4, 10⟩], []⟩ 4 "chat" (some 3) 9 (fun _ => false)).2.1
    ⟨4, 10⟩ rfl

/-- C6. A zero-amount debit (`debit(user, "access-log", 0)`) succeeds,
leaves the user's balance untouched, and appends exactly one usage record
whose token delta is 0. -/
theorem logUsage_zero_amount (db : Db) (uid : Nat) (now : Nat) (u : UserRow)
    (hu : db.users.find? (fun v => v.id = uid) = some u) :
    logUsage false db uid "access-log" (some 0) now (fun _ => false)
      = ({ db with usage_logs := db.usage_logs ++ [⟨uid, "access-log", 0, now⟩] },
         .success (some u.tokens)) := by
  have hmap : db.users.map
      (fun v => if v.id = uid then { v with tokens := v.tokens - (0 : Int) } else v)
      = db.users := by
    have h : ∀ v : UserRow,
        (if v.id = uid then { v with tokens := v.tokens - (0 : Int) } else v) = v := by
      intro v; split <;> simp
    induction db.users with
    | nil => rfl
    | cons x xs ih => simp only [List.map_cons, h x, ih]
  unfold logUsage
  simp [hmap, hu]

/-- C6 witness: a concrete user with balance 250 keeps balance 250 and gains
one zero-delta record. -/
theorem logUsage_zero_amount_witness :
    logUsage false ⟨[⟨7, 250⟩], []⟩ 7 "access-log" (some 0) 3 (fun _ => false)
      = (⟨[⟨7, 250⟩], [⟨7, "access-log", 0, 3⟩]⟩, .success (some 250)) :=
  logUsage_zero_amount ⟨[⟨7, 250⟩], []⟩ 7 3 ⟨7, 250⟩ rfl

/-! ### Usage history: `getMyUsage` from `usageController.js:50-85` -/

/-- Shape of one element of the JSON array answered by `getMyUsage`. -/
structure UsageEntry where
  feature : String
  tokenCount : Int
  timestamp : Nat
deriving Repr, DecidableEq

/-- Stable insertion keeping `created_at` descending (model of both the SQL
`ORDER BY created_at DESC` and the mock path's stable `Array.sort`). -/
def insertByCreatedDesc (x : UsageRecord) : List UsageRecord → List UsageRecord
  | [] => [x]
  | y :: ys =>
    if y.created_at ≤ x.created_at then x :: y :: ys
    else y :: insertByCreatedDesc x ys

/-- Stable sort by `created_at` descending. -/
def sortByCreatedDesc : List UsageRecord → List UsageRecord
  | [] => []
  | x :: xs => insertByCreatedDesc x (sortByCreatedDesc xs)

/-- Row-to-JSON mapping `r => ({feature, tokenCount, timestamp})`. -/
def toEntry (r : UsageRecord) : UsageEntry :=
  ⟨r.feature_name, r.token_count, r.created_at⟩

/-- `getMyUsage`: the MySQL path filters by user, optionally restricts to
the last 7 days when `period === 'week'`, orders newest first, and applies
`LIMIT 50 OFFSET (page-1)*50` exactly when no week filter is given; the
mock path returns every record of the user newest first, ignoring both
`period` and `page`. -/
def getMyUsage (useMock : Bool) (db : Db) (uid : Nat) (period : Option String)
    (page : Nat) (now : Nat) : List UsageEntry :=
  let limit := 50
  let offset := (page - 1) * limit
  if useMock then
    (sortByCreatedDesc (db.usage_logs.filter (fun l => l.user_id = uid))).map toEntry
  else
    let base := db.usage_logs.filter (fun l => l.user_id = uid)
    let filtered :=
      if period = some "week" then
        base.filter (fun l => now - 7 * 24 * 60 * 60 * 1000 ≤ l.created_at)
      else base
    let sorted := sortByCreatedDesc filtered
    let rows :=
      if period = some "week" then sorted
      else (sorted.drop offset).take limit
    rows.map toEntry

/-- C10 counterexample. In mock-database mode `getMyUsage` ignores
pagination: with 51 stored records and no period filter, all 51 come back
in one call, contradicting the claimed 50-record cap. -/
theorem getMyUsage_mock_unpaginated :
    50 < (getMyUsage true ⟨[], (List.range 51).map (fun _ => ⟨1, "f", 1, 0⟩)⟩
        1 none 1 0).length := by
  decide

/-- C10 (amended). On the real-database path, a periodless query returns at
most 50 records, namely the page-`page` slice (skipping `(page-1)*50`) of
the user's records newest first, and `period = week` returns every record
from the last 7 days with no count limit; the in-memory fallback path
instead returns all of the user's records newest first, ignoring both the
period filter and pagination. -/
theorem getMyUsage_pagination (db : Db) (uid : Nat) (page : Nat) (now : Nat) :
    (getMyUsage false db uid none page now).length ≤ 50
    ∧ getMyUsage false db uid none page now
        = (((sortByCreatedDesc (db.usage_logs.filter (fun l => l.user_id = uid))).drop
              ((page - 1) * 50)).take 50).map toEntry
    ∧ getMyUsage false db uid (some "week") page now
        = (sortByCreatedDesc ((db.usage_logs.filter (fun l => l.user_id = uid)).filter
              (fun l => now - 7 * 24 * 60 * 60 * 1000 ≤ l.created_at))).map toEntry
    ∧ getMyUsage true db uid (some "week") page now
        = (sortByCreatedDesc (db.usage_logs.filter (fun l => l.user_id = uid))).map toEntry := by
  have h2 : getMyUsage false db uid none page now
      = (((sortByCreatedDesc (db.usage_logs.filter (fun l => l.user_id = uid))).drop
            ((page - 1) * 50)).take 50).map toEntry := rfl
  refine ⟨?_, h2, rfl, rfl⟩
  rw [h2, List.length_map, List.length_take]
  omega

/-! ### Research-response parsing: `research` in `geminiController.js:37-121`
(the same parsing appears in `researchTopicForPrompt`, `src/unnamed/part_000`).

The facts section is extracted with `/FACTS:\s*([\s\S]*?)(?=IMAGE_PROMPT:|$)/i`
and the image prompt with `/IMAGE_PROMPT:\s*([\s\S]*?)$/i`; both are
replayed here as left-to-right scans with ASCII case folding for the `i`
flag.  The greedy `\s*` after the label is absorbed into the subsequent
`.trim()` but is kept explicit for fidelity. -/

/-- JS `f.replace(/^-\s*/, '')`: strip one leading dash plus the whitespace
after it. -/
def stripMarker : List Char → List Char
  | '-' :: rest => rest.dropWhile isWsChar
  | l => l

/-- Capture group of the FACTS regex, already trimmed (`factsRaw`): empty
when the label is absent, otherwise everything between `FACTS:` and the
next `IMAGE_PROMPT:` (or end of text). -/
def factsSectionRaw (text : List Char) : List Char :=
  match subIdx (lcase "FACTS:".data) (lcase text) with
  | none => []
  | some i =>
    let afterLabel := (text.drop (i + 6)).dropWhile isWsChar
    let cap :=
      match subIdx (lcase "IMAGE_PROMPT:".data) (lcase afterLabel) with
      | none => afterLabel
      | some j => afterLabel.take j
    trimWS cap

/-- The `facts` pipeline: split the section on newlines, strip a leading
list marker and trim each line, drop empties, keep the first 3. -/
def parseFacts (text : List Char) : List (List Char) :=
  (((splitOnChar '\n' (factsSectionRaw text)).map
      (fun f => trimWS (stripMarker f))).filter (fun f => f ≠ [])).take 3

/-- `getLevelInstruction` (geminiController.js:9-22). -/
def getLevelInstruction (level : String) : String :=
  if level = "Elementary" then
    "Target Audience: Elementary School (Ages 6-10). Style: Bright, simple, fun. Use large clear icons and very minimal text labels."
  else if level = "High School" then
    "Target Audience: High School. Style: Standard Textbook. Clean lines, clear labels, accurate maps or diagrams. Avoid cartoony elements."
  else if level = "College" then
    "Target Audience: University. Style: Academic Journal. High detail, data-rich, precise cross-sections or complex schematics."
  else if level = "Expert" then
    "Target Audience: Industry Expert. Style: Technical Blueprint/Schematic. Extremely dense detail, monochrome or technical coloring, precise annotations."
  else
    "Target Audience: General Public. Style: Clear and engaging."

/-- `getStyleInstruction` (geminiController.js:24-35). -/
def getStyleInstruction (style : String) : String :=
  if style = "Minimalist" then
    "Aesthetic: Bauhaus Minimalist. Flat vector art, limited color palette (2-3 colors), reliance on negative space and simple geometric shapes."
  else if style = "Realistic" then
    "Aesthetic: Photorealistic Composite. Cinematic lighting, 8k resolution, highly detailed textures. Looks like a photograph."
  else if style = "Cartoon" then
    "Aesthetic: Educational Comic. Vibrant colors, thick outlines, expressive cel-shaded style."
  else if style = "Vintage" then
    "Aesthetic: 19th Century Scientific Lithograph. Engraving style, sepia tones, textured paper background, fine hatch lines."
  else if style = "Futuristic" then
    "Aesthetic: Cyberpunk HUD. Glowing neon blue/cyan lines on dark background, holographic data visualization, 3D wireframes."
  else if style = "3D Render" then
    "Aesthetic: 3D Isometric Render. Claymorphism or high-gloss plastic texture, studio lighting, soft shadows, looks like a physical model."
  else if style = "Sketch" then
    "Aesthetic: Da Vinci Notebook. Ink on parchment sketch, handwritten annotations style, rough but accurate lines."
  else
    "Aesthetic: High-quality digital scientific illustration. Clean, modern, highly detailed."

/-- The synthesized fallback prompt used when the `IMAGE_PROMPT:` section is
missing (geminiController.js:92), written with explicit right-nested
appends so the template pieces stay visible. -/
def defaultImagePrompt (topic level style language aspectRatio : String) : String :=
  "Create a detailed infographic about " ++
    (topic ++
      (". " ++
        (getLevelInstruction level ++
          (" " ++
            (getStyleInstruction style ++
              (". Layout: " ++
                (aspectRatio ++
                  (". Important: All text labels inside the image must be in " ++
                    (language ++ ".")))))))))

/-- Image-prompt extraction: the trimmed tail after `IMAGE_PROMPT:` when the
label occurs, otherwise the caller's fallback. -/
def parseImagePrompt (text : List Char) (fallback : List Char) : List Char :=
  match subIdx (lcase "IMAGE_PROMPT:".data) (lcase text) with
  | none => fallback
  | some k => trimWS ((text.drop (k + 13)).dropWhile isWsChar)

/-- The part of the research JSON body that the pipeline consumes. -/
structure ResearchResult where
  imagePrompt : String
  facts : List String
  usage : Nat
deriving Repr, DecidableEq

/-- Parsing half of the `research` endpoint: `text` is the provider's
response text and `usage` its reported token count; the raw request
parameters feed the fallback prompt. -/
def research (text : String) (usage : Nat)
    (topic level style language aspectRatio : String) : ResearchResult :=
  { imagePrompt := String.mk (parseImagePrompt text.data
      (defaultImagePrompt topic level style language aspectRatio).data)
    facts := (parseFacts text.data).map String.mk
    usage := usage }

/-- C4. Without a FACTS label the parser yields an empty facts list (and,
being a total function, cannot throw); with the label the facts are the
non-empty trimmed, marker-stripped lines capped at 3 in original order:
inputs carrying exactly 3, 2 and 5 bulleted facts yield 3, 2 and 3 facts. -/
theorem research_facts_degradation :
    (∀ (text : String) (usage : Nat) (topic level style language aspectRatio : String),
        subIdx (lcase "FACTS:".data) (lcase text.data) = none →
        (research text usage topic level style language aspectRatio).facts = [])
    ∧ (∀ (text : String) (usage : Nat) (topic level style language aspectRatio : String),
        (research text usage topic level style language aspectRatio).facts.length ≤ 3)
    ∧ (research "FACTS:\n- Fact A\n- Fact B\n- Fact C\nIMAGE_PROMPT:\nA poster" 0
        "t" "l" "s" "lang" "1:1").facts = ["Fact A", "Fact B", "Fact C"]
    ∧ (research "FACTS:\n- Fact A\n- Fact B\nIMAGE_PROMPT:\nA poster" 0
        "t" "l" "s" "lang" "1:1").facts = ["Fact A", "Fact B"]
    ∧ (research "FACTS:\n- Fact A\n- Fact B\n- Fact C\n- Fact D\n- Fact E\nIMAGE_PROMPT:\nA poster" 0
        "t" "l" "s" "lang" "1:1").facts = ["Fact A", "Fact B", "Fact C"] := by
  refine ⟨?_, ?_, by decide, by decide, by decide⟩
  · intro text usage topic level style language aspectRatio h
    simp [research, parseFacts, factsSectionRaw, h, splitOnChar, trimWS, stripMarker]
  · intro text usage topic level style language aspectRatio
    simp only [research, parseFacts, List.length_map, List.length_take]
    omega

/-- C4 witness: a text with no FACTS label parses to an empty facts list. -/
theorem research_facts_degradation_witness :
    (research "nothing labeled in here" 0 "t" "l" "s" "lang" "1:1").facts = [] :=
  research_facts_degradation.1 "nothing labeled in here" 0 "t" "l" "s" "lang" "1:1"
    (by decide)

/-- C5. When the response text lacks an `IMAGE_PROMPT:` section the research
operation still produces a result whose image prompt is the synthesized
default built from the raw request parameters, and that default contains
the original topic string. -/
theorem research_imagePrompt_fallback (text : String) (usage : Nat)
    (topic level style language aspectRatio : String)
    (h : subIdx (lcase "IMAGE_PROMPT:".data) (lcase text.data) = none) :
    (research text usage topic level style language aspectRatio).imagePrompt
        = defaultImagePrompt topic level style language aspectRatio
    ∧ ∃ pre post : String,
        (research text usage topic level style language aspectRatio).imagePrompt
          = pre ++ (topic ++ post) := by
  have h1 : (research text usage topic level style language aspectRatio).imagePrompt
      = defaultImagePrompt topic level style language aspectRatio := by
    simp [research, parseImagePrompt, h]
  refine ⟨h1, "Create a detailed infographic about ",
    ". " ++
      (getLevelInstruction level ++
        (" " ++
          (getStyleInstruction style ++
            (". Layout: " ++
              (aspectRatio ++
                (". Important: All text labels inside the image must be in " ++
                  (language ++ "."))))))), h1⟩

/-- C5 witness: a concrete promptless response falls back to the default
prompt for topic "Mars". -/
theorem research_imagePrompt_fallback_witness :
    (research "FACTS:\n- only facts" 0 "Mars" "College" "Sketch" "English" "16:9").imagePrompt
      = defaultImagePrompt "Mars" "College" "Sketch" "English" "16:9" :=
  (research_imagePrompt_fallback "FACTS:\n- only facts" 0
    "Mars" "College" "Sketch" "English" "16:9" (by decide)).1

/-! ### Streaming transcription: `processAudio` in `src/unnamed/part_001:27-135`

Each provider chunk's text, when non-empty, is both appended to `fullText`
and written to the client as one `textDelta` event.  After the stream ends,
the terminal event carries `keywords` (the first line when it starts with
`#`) and `content` (the remaining lines, trimmed), both derived from
`fullText`. -/

/-- The `keywords`/`content` part of the terminal SSE event. -/
structure TranscribeTerminal where
  keywords : String
  content : String
deriving Repr, DecidableEq

/-- Lines 99-102 of part_001: derive the terminal `keywords` and `content`
fields from the accumulated `fullText`. -/
def deriveTerminal (fullText : String) : TranscribeTerminal :=
  let lines := splitOnChar '\n' fullText.data
  let keywordsLine : List Char :=
    match lines.head? with
    | some l => if l.head? = some '#' then l else []
    | none => []
  let contentStart : Nat :=
    if keywordsLine = [] then 0
    else
      match lines.get? 1 with
      | some l2 => if trimWS l2 = [] then 2 else 1
      | none => 1
  { keywords := String.mk keywordsLine
    content := String.mk (trimWS (joinWith '\n' (lines.drop contentStart))) }

/-- The relay loop of `processAudio`: the emitted `textDelta` payloads and
the terminal event of a successfully terminating stream, as functions of
the provider chunk texts. -/
def processAudioStream (chunks : List String) : List String × TranscribeTerminal :=
  let deltas := chunks.filter (fun c => c ≠ "")
  (deltas, deriveTerminal (String.join deltas))

/-- When the accumulated text has no leading `#` keywords line and carries
no surrounding whitespace, the terminal `content` is the accumulated text
itself. -/
theorem deriveTerminal_content_id (ft : String)
    (h1 : ((splitOnChar '\n' ft.data).headD []).head? ≠ some '#')
    (h2 : trimWS ft.data = ft.data) :
    (deriveTerminal ft).content = ft := by
  unfold deriveTerminal
  cases hsp : splitOnChar '\n' ft.data with
  | nil => exact absurd hsp (splitOnChar_ne_nil _ _)
  | cons l0 rest =>
    rw [hsp] at h1
    simp only [List.headD_cons] at h1
    simp only [hsp, List.head?_cons, if_neg h1, if_pos rfl, List.drop_zero,
      ite_true, ite_false]
    rw [← hsp, joinWith_splitOnChar, h2]

/-- C2 counterexample. A successfully terminating transcription stream whose
text opens with a `#` keywords line: the concatenation of the emitted
textDelta payloads is `"#k1 #k2\n\nhello"` while the terminal event reports
`content = "hello"` (keywords line stripped, text trimmed) — not equal
byte-for-byte. -/
theorem processAudio_terminal_mismatch :
    String.join (processAudioStream ["#k1 #k2", "\n\nhello"]).1
        = "#k1 #k2\n\nhello"
      ∧ (processAudioStream ["#k1 #k2", "\n\nhello"]).2.content = "hello"
      ∧ ("#k1 #k2\n\nhello" : String) ≠ "hello" := by
  refine ⟨by decide, by decide, by decide⟩

/-- C2 (amended). The concatenation of the emitted textDelta payloads equals
the accumulated `fullText`, and the terminal event's fields are derived
from exactly that accumulation — `content` is `fullText` with a leading
`#`-keywords line (plus one following blank line) removed and the result
trimmed.  Byte-for-byte equality between the delta concatenation and the
terminal `content` holds exactly in the no-keywords-line, already-trimmed
case. -/
theorem streaming_accumulation (chunks : List String) :
    (processAudioStream chunks).2
        = deriveTerminal (String.join ((processAudioStream chunks).1))
    ∧ ((((splitOnChar '\n'
            (String.join ((processAudioStream chunks).1)).data).headD []).head?
          ≠ some '#') →
        trimWS (String.join ((processAudioStream chunks).1)).data
            = (String.join ((processAudioStream chunks).1)).data →
        (processAudioStream chunks).2.content
          = String.join ((processAudioStream chunks).1)) := by
  refine ⟨rfl, fun h1 h2 => ?_⟩
  exact deriveTerminal_content_id (String.join ((processAudioStream chunks).1)) h1 h2

/-- C2 witness: a keywordless, already-trimmed stream where the terminal
content equals the concatenation of the deltas. -/
theorem streaming_accumulation_witness :
    (processAudioStream ["hel", "lo"]).2.content
      = String.join ((processAudioStream ["hel", "lo"]).1) :=
  (streaming_accumulation ["hel", "lo"]).2 (by decide) (by decide)

/-! ### File-readiness polling: `waitForFilesActive` in `src/unnamed/part_001:11-25`

For each uploaded file the loop re-fetches the file state and keeps
sleeping 2 seconds between polls `while (fileStatus.state === "PROCESSING")`;
when a poll reports something else, a non-`ACTIVE` state throws.  `states n`
is the provider-reported state at the n-th `getFile` call and `fuel` bounds
how many polls we unroll; `stillPolling` means the loop has not produced
any outcome within that many polls. -/

/-- Outcome of unrolling the poll loop a bounded number of steps. -/
inductive WaitOutcome where
  | ok
  | failed (state : String)
  | stillPolling
deriving Repr, DecidableEq

/-- The poll loop for one file, unrolled `fuel` polls starting from poll
index `i`. -/
def waitLoop (states : Nat → String) : Nat → Nat → WaitOutcome
  | _, 0 => .stillPolling
  | i, fuel + 1 =>
    if states i = "PROCESSING" then waitLoop states (i + 1) fuel
    else if states i = "ACTIVE" then .ok
    else .failed (states i)

theorem waitLoop_all_processing :
    ∀ (fuel i : Nat), waitLoop (fun _ => "PROCESSING") i fuel = .stillPolling := by
  intro fuel
  induction fuel with
  | zero => intro i; rfl
  | succ f ih =>
    intro i
    simp only [waitLoop, if_pos rfl]
    exact ih (i + 1)

theorem waitLoop_first_non_processing (states : Nat → String) :
    ∀ (n i fuel : Nat), (∀ k, k < n → states (i + k) = "PROCESSING") →
      states (i + n) ≠ "PROCESSING" → n < fuel →
      waitLoop states i fuel
        = if states (i + n) = "ACTIVE" then .ok else .failed (states (i + n)) := by
  intro n
  induction n with
  | zero =>
    intro i fuel _ hn hfuel
    cases fuel with
    | zero => omega
    | succ f =>
      rw [Nat.add_zero] at hn
      simp only [waitLoop, if_neg hn, Nat.add_zero]
  | succ m ih =>
    intro i fuel hbefore hn hfuel
    cases fuel with
    | zero => omega
    | succ f =>
      have hi : states i = "PROCESSING" := by
        have := hbefore 0 (Nat.succ_pos m)
        simpa using this
      simp only [waitLoop, if_pos hi]
      have hb : ∀ k, k < m → states (i + 1 + k) = "PROCESSING" := by
        intro k hk
        have := hbefore (k + 1) (by omega)
        have harith : i + (k + 1) = i + 1 + k := by omega
        rwa [harith] at this
      have hn2 : states (i + 1 + m) ≠ "PROCESSING" := by
        have harith : i + (m + 1) = i + 1 + m := by omega
        rwa [harith] at hn
      have := ih (i + 1) f hb hn2 (by omega)
      have harith : i + 1 + m = i + (m + 1) := by omega
      rwa [harith] at this

/-- C3 counterexample. For a file registration that never leaves the
`PROCESSING` state, the poll loop of `waitForFilesActive` produces no
outcome after any number of polls: there is no bounded retry budget and no
reported timeout error — the pipeline waits forever. -/
theorem waitForFilesActive_never_times_out :
    ¬ ∃ fuel : Nat,
      waitLoop (fun _ => "PROCESSING") 0 fuel ≠ WaitOutcome.stillPolling := by
  rintro ⟨fuel, h⟩
  exact h (waitLoop_all_processing fuel 0)

/-- C3 (amended). The readiness wait polls with a fixed 2-second delay but
with no retry bound: if the n-th poll is the first one reporting a
non-`PROCESSING` state, the loop stops there — `ok` for `ACTIVE`, a thrown
error naming the state otherwise — while a registration that reports
`PROCESSING` at every poll is waited on forever instead of producing a
timeout error. -/
theorem waitForFilesActive_poll (states : Nat → String) (n fuel : Nat)
    (hbefore : ∀ k, k < n → states k = "PROCESSING")
    (hn : states n ≠ "PROCESSING") (hfuel : n < fuel) :
    (waitLoop states 0 fuel
        = if states n = "ACTIVE" then .ok else .failed (states n))
    ∧ (∀ m, waitLoop (fun _ => "PROCESSING") 0 m = .stillPolling) := by
  constructor
  · have := waitLoop_first_non_processing states n 0 fuel
      (by intro k hk; simpa using hbefore k hk) (by simpa using hn) hfuel
    simpa using this
  · intro m
    exact waitLoop_all_processing m 0

/-- C3 witness: a file that reports `PROCESSING` twice and then `FAILED`
makes the loop throw the failure error at the third poll. -/
theorem waitForFilesActive_poll_witness :
    waitLoop (fun k => if k < 2 then "PROCESSING" else "FAILED") 0 4
      = .failed "FAILED" := by
  have h := (waitForFilesActive_poll (fun k => if k < 2 then "PROCESSING" else "FAILED")
    2 4 (by intro k hk; simp [hk]) (by decide) (by decide)).1
  simpa using h

/-! ### Request authentication: `authenticateToken` in `src/server/middleware/auth.js`
and `login` in `src/unnamed/part_003:54-105`.

The middleware only extracts the bearer token and runs `jwt.verify`
(modelled by the `verify` oracle, `none` for an invalid or expired
signature); the user table is never consulted per request.  Approval and
account expiration are checked by `login` when the 7-day token is issued. -/

/-- The claims baked into a signed token (`signToken`): id, username, role —
no approval flag, no account expiration. -/
structure JwtPayload where
  id : Nat
  username : String
  role : String
deriving Repr, DecidableEq

/-- JS `authHeader && authHeader.split(' ')[1]` with the subsequent `!token`
check: the usable bearer token, if any. -/
def tokenOf (authHeader : Option String) : Option String :=
  match authHeader with
  | none => none
  | some h =>
    match (splitOnChar ' ' h.data).get? 1 with
    | none => none
    | some t => if t = [] then none else some (String.mk t)

/-- `authenticateToken` (auth.js:4-15): 401 without a token, 403 when
`jwt.verify` rejects, otherwise the decoded payload becomes `req.user`. -/
def authenticateToken (authHeader : Option String)
    (verify : String → Option JwtPayload) : Except Nat JwtPayload :=
  match tokenOf authHeader with
  | none => .error 401
  | some t =>
    match verify t with
    | none => .error 403
    | some payload => .ok payload

/-- The user-table columns consulted by `login`. -/
structure UserRec where
  id : Nat
  username : String
  role : String
  is_approved : Bool
  expiration_date : Option Nat
deriving Repr, DecidableEq

/-- `login` (part_003:54-105): user lookup, password check (oracle), then —
for non-admins — approval and account-expiration checks before a token is
signed.  A stored `expiration_date` of 0 is falsy in JS and skips the
expiry check. -/
def login (users : List UserRec) (username : String) (passwordOk : Bool)
    (now : Nat) : Except Nat JwtPayload :=
  match users.find? (fun u => u.username = username) with
  | none => .error 400
  | some user =>
    if passwordOk = false then .error 400
    else if user.role ≠ "admin" ∧ user.is_approved = false then .error 403
    else
      let expDate : Option Nat :=
        match user.expiration_date with
        | some e => if e = 0 then none else some e
        | none => none
      match expDate with
      | some e =>
        if user.role ≠ "admin" ∧ e < now then .error 403
        else .ok ⟨user.id, user.username, user.role⟩
      | none => .ok ⟨user.id, user.username, user.role⟩

/-- The `/api/gemini/research` request path: `authenticateToken` runs first,
then the handler checks `genAI` availability and otherwise immediately
issues the provider call.  Result: (provider invoked?, error status if
any).  The `users` table is passed because it exists server-side, but the
per-request path never reads it. -/
def researchEndpoint (genAIAvailable : Bool) (users : List UserRec)
    (authHeader : Option String) (verify : String → Option JwtPayload) :
    Bool × Option Nat :=
  match authenticateToken authHeader verify with
  | .error s => (false, some s)
  | .ok _ =>
    if genAIAvailable then (true, none) else (false, some 503)

/-- A user record that is both unapproved and long expired. -/
def staleUser : UserRec := ⟨1, "alice", "user", false, some 5⟩

/-- A verifier accepting the (still signature-valid, 7-day) token `tok1`
for `staleUser`. -/
def staleVerify : String → Option JwtPayload :=
  fun t => if t = "tok1" then some ⟨1, "alice", "user"⟩ else none

/-- C7 counterexample. A request bearing a signature-valid JWT for an
account that is unapproved and past its expiration timestamp is *not*
rejected: the provider call is made, because the middleware never consults
the user table — the same account is refused a fresh login with 403. -/
theorem auth_skips_account_status :
    (researchEndpoint true [staleUser] (some "Bearer tok1") staleVerify).1 = true
      ∧ staleUser.is_approved = false
      ∧ staleUser.expiration_date = some 5
      ∧ login [staleUser] "alice" true 100 = .error 403 := by
  refine ⟨by decide, rfl, rfl, rfl⟩

/-- C7 (amended). A missing bearer token is rejected 401 and an invalid or
expired JWT 403, both before any provider call; but approval and account
expiration are enforced only at login (where unapproved non-admins get
403): a request with any signature-valid JWT reaches the provider no
matter what the user table now says, and the outcome is completely
independent of the user table. -/
theorem auth_fail_fast (users : List UserRec)
    (verify : String → Option JwtPayload) (g : Bool) :
    researchEndpoint g users none verify = (false, some 401)
    ∧ (∀ h t, tokenOf (some h) = some t → verify t = none →
        researchEndpoint g users (some h) verify = (false, some 403))
    ∧ (∀ h t p, tokenOf (some h) = some t → verify t = some p →
        researchEndpoint true users (some h) verify = (true, none))
    ∧ (∀ users2 h, researchEndpoint g users h verify
        = researchEndpoint g users2 h verify)
    ∧ (∀ uname user now, users.find? (fun u => u.username = uname) = some user →
        user.role ≠ "admin" → user.is_approved = false →
        login users uname true now = .error 403) := by
  refine ⟨rfl, ?_, ?_, fun users2 h => rfl, ?_⟩
  · intro h t ht hv
    simp [researchEndpoint, authenticateToken, ht, hv]
  · intro h t p ht hp
    simp [researchEndpoint, authenticateToken, ht, hp]
  · intro uname user now hfind hrole happr
    simp only [login, hfind]
    rw [if_neg (by simp), if_pos ⟨hrole, happr⟩]

/-- C7 witness: a concrete valid token reaches the provider. -/
theorem auth_fail_fast_witness :
    researchEndpoint true []
        (some "Bearer abc")
        (fun t => if t = "abc" then some ⟨2, "bob", "user"⟩ else none)
      = (true, none) :=
  (auth_fail_fast [] (fun t => if t = "abc" then some ⟨2, "bob", "user"⟩ else none)
      true).2.2.1 "Bearer abc" "abc" ⟨2, "bob", "user"⟩ (by decide) (by decide)

/-! ### Research-then-generate cost charging: `handleGenerate` in
`src/unnamed/part_011:91-163`.

`totalTokens` starts from the research step's reported usage, the image
generation step's usage is added, and — after the image is saved — a single
`logUsage('可視化引擎', totalTokens)` call is issued.  An error in either
provider step aborts to the catch block with no debit; a failure of the
save/debit block is swallowed. -/

/-- Outcome of one awaited pipeline step with its reported token usage. -/
inductive StepResult where
  | ok (usage : Nat)
  | err
deriving Repr, DecidableEq

/-- The sequence of ledger debit calls `(featureTag, amount)` issued by one
`handleGenerate` run, as a function of the two provider steps' outcomes and
whether `saveUserImage` succeeded. -/
def handleGenerate (researchStep genStep : StepResult) (saveOk : Bool) :
    List (String × Nat) :=
  match researchStep with
  | .err => []
  | .ok u1 =>
    let totalTokens := u1
    match genStep with
    | .err => []
    | .ok u2 =>
      let totalTokens2 := totalTokens + u2
      if saveOk then [("可視化引擎", totalTokens2)] else []

/-- C8. A fully successful research-then-generate run issues exactly one
ledger debit, whose amount is the sum of the two steps' reported costs; no
execution path of `handleGenerate` ever issues two debits. -/
theorem handleGenerate_single_summed_debit (u1 u2 : Nat) :
    handleGenerate (.ok u1) (.ok u2) true = [("可視化引擎", u1 + u2)]
    ∧ ∀ r g s, (handleGenerate r g s).length ≤ 1 := by
  refine ⟨rfl, ?_⟩
  intro r g s
  cases r <;> cases g <;> cases s <;> simp [handleGenerate]

/-! ### Transcript refinement: `refineTranscript` in `src/unnamed/part_001:155-215`.

The refinement input is `original_content`: the SELECT fetches only
`original_content, keywords`, so the `rows[0].original_content ||
rows[0].content` expression reads an undefined `content` property and a
NULL or empty `original_content` always falls through to the
`'Content not found'` 400 response.  The model's output overwrites only the
`content` column (`UPDATE transcripts SET content = ? WHERE id = ?`), so
`original_content` keeps the raw transcript for later refinements. -/

/-- One row of the `transcripts` table. -/
structure Transcript where
  id : String
  user_id : Nat
  title : String
  content : String
  original_content : Option String
  keywords : String
  created_at : Nat
deriving Repr, DecidableEq

/-- HTTP outcome of `refineTranscript`. -/
inductive RefineResult where
  | okRefined (refinedText : String)
  | badRequest
  | notFound
deriving Repr, DecidableEq

/-- The `organize` ('AI整理') prompt template (part_001:180-189). -/
def organizePrompt (originalText : String) : String :=
  "你是一位專業的文案整理專家。請對以下錄音逐字稿進行「AI整理」，要求如下：\n1. **刪除冗詞**：刪除重複、多餘、囉嗦的字詞以及無意義的語氣停頓詞（如「嗯」、「啊」等），確保文稿通順、流暢。\n2. **修正與標註**：如果原文中有明顯的口誤或事實性錯誤，可以直接改正，但必須在改正處後面用括號註明改動，例如：「我們去了北京（原文為上海）」。\n3. **語音修正**：對一些發音不清或帶有方言口音的地方根據語境進行修正。\n4. **忠於原文**：除了上述必要的精簡、潤色和修正，不要擅自增加或刪減核心內容，不要歸納總結。\n5. **段落劃分**：根據內容的邏輯關係進行適當的段落劃分，但不要使用清單式的小標題。\n6. **保留講者**：如果原文有講者標註，請盡量保留或合理整合。\n\n原始文本：\n" ++ originalText

/-- The `formalize` ('AI書面化') prompt template (part_001:191-199). -/
def formalizePrompt (originalText : String) : String :=
  "你是一位專業的文案整理專家。請對以下錄音逐字稿進行「AI書面化」，要求如下：\n1. **基於整理**：首先執行「AI整理」的所有步驟（刪除冗詞、修正口誤等）。\n2. **書面化轉換**：在保留原意的基礎上，把一些過於口語化的內容轉成書面語或正式用語。\n3. **標註轉換**：必須在轉換處後面用括號標註，例如：「這事兒挺靠譜的（原文：這事兒倍兒棒）」。\n4. **忠於原文**：不要擅自增加或刪減核心內容，不要歸納總結。\n5. **段落劃分**：根據內容的邏輯關係進行適當的段落劃分。\n\n原始文本：\n" ++ originalText

/-- `refineTranscript` (part_001:155-215): `model` is the provider oracle
mapping the built prompt to the refined text.  Returns the updated
transcripts table and the HTTP outcome. -/
def refineTranscript (db : List Transcript) (uid : Nat) (id : String)
    (refinementType : Option String) (model : String → String) :
    List Transcript × RefineResult :=
  match refinementType with
  | none => (db, .badRequest)
  | some rt =>
    if id = "" then (db, .badRequest)
    else if rt = "" then (db, .badRequest)
    else
      match db.find? (fun t => t.id = id ∧ t.user_id = uid) with
      | none => (db, .notFound)
      | some row =>
        let originalText : Option String :=
          match row.original_content with
          | some s => if s = "" then none else some s
          | none => none
        match originalText with
        | none => (db, .badRequest)
        | some orig =>
          if rt = "organize" then
            let refinedText := model (organizePrompt orig)
            (db.map (fun t => if t.id = id then { t with content := refinedText } else t),
              .okRefined refinedText)
          else if rt = "formalize" then
            let refinedText := model (formalizePrompt orig)
            (db.map (fun t => if t.id = id then { t with content := refinedText } else t),
              .okRefined refinedText)
          else (db, .badRequest)

theorem find?_content_update (db : List Transcript) (id : String) (uid : Nat)
    (new : String) :
    (db.map (fun t => if t.id = id then { t with content := new } else t)).find?
        (fun t => t.id = id ∧ t.user_id = uid)
      = Option.map (fun t => if t.id = id then { t with content := new } else t)
          (db.find? (fun t => t.id = id ∧ t.user_id = uid)) := by
  rw [List.find?_map]
  have hp : ((fun t : Transcript => decide (t.id = id ∧ t.user_id = uid)) ∘
      (fun t => if t.id = id then { t with content := new } else t))
      = (fun t : Transcript => decide (t.id = id ∧ t.user_id = uid)) := by
    funext t
    by_cases h : t.id = id <;> simp [Function.comp, h]
  rw [hp]

/-- C9. Refining an existing transcript whose raw text is persisted in
`original_content`: the refinement input is that original text, the model
output overwrites only the `content` field of the matching row, the
`original_content` column is unchanged across the whole table, and a
subsequent refinement of the other kind still derives from the same
original text. -/
theorem refineTranscript_preserves_original (db : List Transcript) (uid : Nat)
    (id : String) (row : Transcript) (s : String) (model1 model2 : String → String)
    (hid : ¬ id = "")
    (hfind : db.find? (fun t => t.id = id ∧ t.user_id = uid) = some row)
    (horig : row.original_content = some s) (hs : ¬ s = "") :
    (refineTranscript db uid id (some "organize") model1).2
        = .okRefined (model1 (organizePrompt s))
    ∧ (refineTranscript db uid id (some "organize") model1).1
        = db.map (fun t =>
            if t.id = id then { t with content := model1 (organizePrompt s) } else t)
    ∧ ((refineTranscript db uid id (some "organize") model1).1.map
          (fun t => t.original_content)) = db.map (fun t => t.original_content)
    ∧ (refineTranscript
          ((refineTranscript db uid id (some "organize") model1).1)
          uid id (some "formalize") model2).2
        = .okRefined (model2 (formalizePrompt s)) := by
  have h1 : refineTranscript db uid id (some "organize") model1
      = (db.map (fun t =>
            if t.id = id then { t with content := model1 (organizePrompt s) } else t),
         .okRefined (model1 (organizePrompt s))) := by
    simp only [refineTranscript, hfind, horig]
    rw [if_neg hid]
    simp [hs]
  have horig2 : (if row.id = id then
        { row with content := model1 (organizePrompt s) } else row).original_content
      = some s := by
    by_cases h : row.id = id <;> simp [h, horig]
  refine ⟨by rw [h1], by rw [h1], ?_, ?_⟩
  · rw [h1]
    simp only [List.map_map]
    have hcomp : ((fun t : Transcript => t.original_content) ∘
        (fun t => if t.id = id then { t with content := model1 (organizePrompt s) } else t))
        = fun t : Transcript => t.original_content := by
      funext t
      by_cases h : t.id = id <;> simp [Function.comp, h]
    rw [hcomp]
  · rw [h1]
    simp only [refineTranscript, find?_content_update, hfind, Option.map_some]
    rw [if_neg hid]
    simp [horig2, hs]

/-- C9 witness: one concrete organize-then-formalize sequence on a single
stored transcript. -/
theorem refineTranscript_preserves_original_witness :
    (refineTranscript
        ((refineTranscript [⟨"t1", 9, "title", "raw", some "raw", "", 0⟩]
            9 "t1" (some "organize") (fun _ => "A")).1)
        9 "t1" (some "formalize") (fun _ => "B")).2
      = .okRefined "B" :=
  (refineTranscript_preserves_original
      [⟨"t1", 9, "title", "raw", some "raw", "", 0⟩] 9 "t1"
      ⟨"t1", 9, "title", "raw", some "raw", "", 0⟩ "raw"
      (fun _ => "A") (fun _ => "B")
      (by decide) rfl rfl (by decide)).2.2.2
